import Mathlib

/-!
Shallow embedding of `scripts/fetch_test_data.py`: the dataset-record table
deduplication (`deduplicate_datasets`), the spatial/temporal decimation of a
grid dataset (`decimate_dataset`) and the output-path generation
(`create_out_filename`), together with proofs of their specified properties.

Modelling conventions:
* A pandas dataframe of dataset records is a `List Row`; the pipeline only
  reads the `key`, `time_start` and `time_end` columns by name, so all other
  columns are kept as an association list `fields`.  `time_start`/`time_end`
  hold period strings (e.g. "2000"); pandas `min`/`max` on such a column is
  the lexicographic minimum/maximum, i.e. `min`/`max` of Mathlib's
  `LinearOrder String`.
* `groupby("key")` sorts the distinct keys (pandas default `sort=True`) and
  keeps the original row order inside each group; `include_groups=False`
  drops the key column before `apply` and `reset_index()` restores it, which
  is observationally the head row's own `key` field since every row of a
  group carries the group key.
* An `xr.Dataset` is a `Dataset`: its dimension names, the optional
  coordinate variables `lat`, `lon`, `i`, `j` (each with the list of
  dimension names of the variable and its 1-d value list) and an optional
  1-d `time` coordinate.  Time stamps are encoded as month counts
  `12 * year + (month - 1)` so that calendar order is `Nat` order and
  `strftime("%Y%m")` is arithmetic.  `interp`/`sel` with a 1-d coordinate
  subset makes the corresponding dimension exactly as long as the chosen
  coordinate values, so dimension lengths are the lengths of the stored
  value lists.
* A Python `AssertionError`, `AttributeError` or `ValueError` escaping the
  function is an `Except.error`; the `None` no-data sentinel is the `none`
  of the `Option` inside `Except.ok`.
-/

namespace FetchTestData

/-- One dataset record (one row of the merged dataframe): the catalog key,
the stamped time span, and every other metadata column as an association
list. -/
structure Row where
  key : String
  time_start : String
  time_end : String
  fields : List (String × String)
  deriving Repr, DecidableEq

/-- `group.time_start.min()`: the lexicographic minimum of the stamped start
over the whole group `first :: rest`. -/
def groupMinStart (first : Row) (rest : List Row) : String :=
  rest.foldl (fun m r => min m r.time_start) first.time_start

/-- `group.time_end.max()`: the lexicographic maximum of the stamped end
over the whole group `first :: rest`. -/
def groupMaxEnd (first : Row) (rest : List Row) : String :=
  rest.foldl (fun m r => max m r.time_end) first.time_end

/-- `_deduplicate_group`: take the first row of the group and override its
time span with the group-wide minimum start and maximum end. -/
def dedup_group (first : Row) (rest : List Row) : Row :=
  { first with
    time_start := groupMinStart first rest
    time_end := groupMaxEnd first rest }

/-- The rows of `datasets` sharing the key `k`, in table order (the group
produced by `groupby("key")` for that key). -/
def groupFor (datasets : List Row) (k : String) : List Row :=
  datasets.filter (fun r => r.key == k)

/-- The distinct keys of the table in ascending order: `groupby("key")`
with the pandas default `sort=True` iterates the groups by sorted key. -/
def sortedKeys (datasets : List Row) : List String :=
  ((datasets.map Row.key).dedup).mergeSort (fun a b => decide (a ≤ b))

/-- The deduplicated record for key `k`: `_deduplicate_group` applied to the
group of `k`, or `none` when the table has no row with that key. -/
def repRow (datasets : List Row) (k : String) : Option Row :=
  match groupFor datasets k with
  | [] => none
  | first :: rest => some (dedup_group first rest)

/-- `deduplicate_datasets`: group the table by key and collapse every group
to its `_deduplicate_group` representative. -/
def deduplicate_datasets (datasets : List Row) : List Row :=
  (sortedKeys datasets).filterMap (repRow datasets)

/- ### State-passing model of `deduplicate_datasets` (for the frame claim)

pandas series are mutable, so `_deduplicate_group` is re-modelled with the
in-place writes explicit: the function receives the group, binds
`first = group.iloc[0].copy()`, assigns `first.time_start` and
`first.time_end` (both writes land on the copy, never on the group), and the
pair (group after the call, produced row) is returned.  The driver loop
writes each group back into the table it came from. -/

/-- `_deduplicate_group` with the state of its group made explicit: returns
the group as it is after the call together with the produced row. -/
def dedup_group_state (group : List Row) : List Row × Option Row :=
  match group with
  | [] => ([], none)
  | f :: rest =>
    let first0 := f
    let first1 := { first0 with time_start := groupMinStart f rest }
    let first2 := { first1 with time_end := groupMaxEnd f rest }
    (f :: rest, some first2)

/-- Write the post-call state `g2` of the `k`-group back into the table,
replacing the n-th row with key `k` by the n-th row of `g2`. -/
def writeBack : List Row → String → List Row → List Row
  | [], _, _ => []
  | r :: rs, k, g2 =>
    if r.key == k then
      match g2 with
      | [] => r :: writeBack rs k []
      | g :: gs => g :: writeBack rs k gs
    else r :: writeBack rs k g2

/-- `deduplicate_datasets` with the state of the input table made explicit:
processes the group of every key, writes each group back, and accumulates
the produced rows.  Returns (table after the call, output table). -/
def deduplicate_datasets_state (datasets : List Row) : List Row × List Row :=
  (sortedKeys datasets).foldl
    (fun st k =>
      let res := dedup_group_state (groupFor st.1 k)
      (writeBack st.1 k res.1, st.2 ++ res.2.toList))
    (datasets, [])

/- ### Grid datasets and `decimate_dataset` -/

/-- A coordinate variable of an `xr.Dataset`: the dimension names of the
variable and its values (1-d once `dims` is a singleton). -/
structure Coord where
  dims : List String
  values : List Int
  deriving Repr, DecidableEq

/-- An `xr.Dataset` as the decimation step sees it: the dataset's dimension
names, the optional spatial coordinate variables, and the optional 1-d time
coordinate (month counts `12 * year + month - 1`). -/
structure Dataset where
  dims : List String
  lat : Option Coord
  lon : Option Coord
  i : Option Coord
  j : Option Coord
  time : Option (List Nat)
  deriving Repr, DecidableEq

/-- The spatial part of `decimate_dataset`: branch on the grid convention,
subset the grid coordinates, or raise.  `dataset.interp(lat=dataset.lat[:10],
lon=dataset.lon[:10])` keeps the first (up to) 10 points of each 1-d
coordinate; the `ij` branch keeps the first 10 horizontal indices and the
10-point vertical window `j[j_midpoint : j_midpoint + 10]`. -/
def decimate_spatial (dataset : Dataset) : Except String Dataset :=
  if "lat" ∈ dataset.dims ∧ "lon" ∈ dataset.dims then
    match dataset.lat, dataset.lon with
    | some la, some lo =>
      if la.dims.length = 1 ∧ lo.dims.length = 1 then
        Except.ok { dataset with
          lat := some { la with values := la.values.take 10 }
          lon := some { lo with values := lo.values.take 10 } }
      else Except.error "AssertionError"
    | _, _ => Except.error "AttributeError: lat or lon coordinate missing"
  else if "i" ∈ dataset.dims ∧ "j" ∈ dataset.dims then
    match dataset.i, dataset.j with
    | some ci, some cj =>
      let j_midpoint := cj.values.length / 2
      Except.ok { dataset with
        i := some { ci with values := ci.values.take 10 }
        j := some { cj with values := (cj.values.drop j_midpoint).take 10 } }
    | _, _ => Except.error "AttributeError: i or j coordinate missing"
  else Except.error "Cannot decimate this grid: too many dimensions"

/-- `decimate_dataset`: spatially decimate, then, when the dataset has a
time dimension and a span was supplied, clip to the span
(`result.sel(time=slice(*time_span))`, labels inclusive on both ends) and
turn an empty clip into the `None` sentinel. -/
def decimate_dataset (dataset : Dataset) (time_span : Option (Nat × Nat)) :
    Except String (Option Dataset) :=
  match decimate_spatial dataset with
  | Except.error e => Except.error e
  | Except.ok result =>
    if "time" ∈ dataset.dims then
      match time_span with
      | some span =>
        match result.time with
        | some tv =>
          let clipped := tv.filter (fun t => decide (span.1 ≤ t ∧ t ≤ span.2))
          if clipped.length = 0 then Except.ok none
          else Except.ok (some { result with time := some clipped })
        | none => Except.error "AttributeError: time coordinate missing"
      | none => Except.ok (some result)
    else Except.ok (some result)

/- ### `create_out_filename` -/

def cmip6_path_items : List String :=
  ["mip_era", "activity_drs", "institution_id", "source_id", "experiment_id",
   "member_id", "table_id", "variable_id", "grid_label"]

def cmip6_filename_paths : List String :=
  ["variable_id", "table_id", "source_id", "experiment_id", "member_id",
   "grid_label"]

def obs4mips_path_items : List String :=
  ["activity_id", "institution_id", "source_id", "variable_id", "grid_label"]

def obs4mips_filename_paths : List String :=
  ["variable_id", "source_id", "grid_label"]

/-- `metadata[item]` on the metadata series: the value of the named column,
`none` when the column is absent (a `KeyError` in Python). -/
def getField (metadata : List (String × String)) (item : String) : Option String :=
  (metadata.find? (fun p => p.1 == item)).map (fun p => p.2)

/-- The minimum of a 1-d time coordinate (`ds.time.min()`). -/
def listMin : List Nat → Option Nat
  | [] => none
  | x :: xs => some (xs.foldl min x)

/-- The maximum of a 1-d time coordinate (`ds.time.max()`). -/
def listMax : List Nat → Option Nat
  | [] => none
  | x :: xs => some (xs.foldl max x)

/-- Decimal digits of `n` left-padded with zeros to width `w`. -/
def padZeros (w : Nat) (n : Nat) : String :=
  let s := toString n
  String.mk (List.replicate (w - s.length) '0') ++ s

/-- `strftime("%Y%m")` on a month-count time stamp: four-digit year then
two-digit month. -/
def fmtYYYYMM (t : Nat) : String :=
  padZeros 4 (t / 12) ++ padZeros 2 (t % 12 + 1)

/-- `create_out_filename`: pick the metadata schema from the `project`
column, join the schema's path fields plus the `v<version>` leaf into the
directory components, underscore-join the filename fields, and append a
`YYYYMM-YYYYMM` suffix from the dataset's own time coordinate when the
dataset has a time dimension.  Returns the path as its list of components
(the filename last); `none` is a `KeyError`/`AttributeError` escaping. -/
def create_out_filename (metadata : List (String × String)) (ds : Dataset) :
    Option (List String) := do
  let project ← getField metadata "project"
  let schema :=
    if project = "obs4MIPs" then (obs4mips_path_items, obs4mips_filename_paths)
    else (cmip6_path_items, cmip6_filename_paths)
  let path_parts ← schema.1.mapM (getField metadata)
  let version ← getField metadata "version"
  let stem_parts ← schema.2.mapM (getField metadata)
  let output_path := path_parts ++ ["v" ++ version]
  let stem := String.intercalate "_" stem_parts
  if "time" ∈ ds.dims then
    let tv ← ds.time
    let tmin ← listMin tv
    let tmax ← listMax tv
    pure (output_path ++ [stem ++ "_" ++ fmtYYYYMM tmin ++ "-" ++ fmtYYYYMM tmax ++ ".nc"])
  else
    pure (output_path ++ [stem ++ ".nc"])

/- ### The spec's reading of the ij window, and concrete inputs -/

/-- Modelled from the spec: the Decimator, for an ij grid, selects "a
10-point window centered at the midpoint along the vertical index" — the 10
j-values whose window has the j-midpoint `len / 2` as its center, i.e.
`j[mid - 5 : mid + 5]`.  To be compared with what `decimate_dataset`
selects. -/
def spec_centered_j_window (values : List Int) : List Int :=
  (values.drop (values.length / 2 - 5)).take 10

/-- A 12-point latitude coordinate. -/
def latW : Coord := ⟨["lat"], [0, 1, 2, 3, 4, 5, 6, 7, 8, 9, 10, 11]⟩

/-- A 4-point longitude coordinate. -/
def lonW : Coord := ⟨["lon"], [0, 1, 2, 3]⟩

/-- A lat/lon dataset with a time coordinate spanning Jan 2000 – Dec 2000
(month counts 24000 and 24011). -/
def dsLatLon : Dataset :=
  ⟨["time", "lat", "lon"], some latW, some lonW, none, none, some [24000, 24011]⟩

/-- A 12-point horizontal index coordinate. -/
def iW : Coord := ⟨["i"], [0, 1, 2, 3, 4, 5, 6, 7, 8, 9, 10, 11]⟩

/-- A 20-point vertical index coordinate. -/
def jW : Coord :=
  ⟨["j"], [0, 1, 2, 3, 4, 5, 6, 7, 8, 9, 10, 11, 12, 13, 14, 15, 16, 17, 18, 19]⟩

/-- An ij (curvilinear) dataset without a time dimension. -/
def dsIJ : Dataset := ⟨["i", "j"], none, none, some iW, some jW, none⟩

/-- What `decimate_dataset dsIJ none` evaluates to. -/
def dsIJ_decimated : Dataset :=
  ⟨["i", "j"], none, none, some ⟨["i"], [0, 1, 2, 3, 4, 5, 6, 7, 8, 9]⟩,
    some ⟨["j"], [10, 11, 12, 13, 14, 15, 16, 17, 18, 19]⟩, none⟩

/-- A dataset with neither the lat/lon nor the i/j dimension pair. -/
def dsNoGrid : Dataset := ⟨["time"], none, none, none, none, some [24000]⟩

/-- A dataset carrying both the lat/lon and the i/j dimension pairs. -/
def dsBoth : Dataset :=
  ⟨["lat", "lon", "i", "j"], some latW, some lonW, some iW, some jW, none⟩

/-- What `decimate_dataset dsBoth none` evaluates to: lat is cut to 10
points, i and j are untouched. -/
def dsBoth_decimated : Dataset :=
  ⟨["lat", "lon", "i", "j"], some ⟨["lat"], [0, 1, 2, 3, 4, 5, 6, 7, 8, 9]⟩,
    some lonW, some iW, some jW, none⟩

/-- The metadata record of a CMIP-style (non-obs4MIPs) dataset. -/
def cmip_metadata : List (String × String) :=
  [("project", "CMIP6"), ("mip_era", "CMIP6"), ("activity_drs", "CMIP"),
   ("institution_id", "CSIRO"), ("source_id", "ACCESS-ESM1-5"),
   ("experiment_id", "historical"), ("member_id", "r1i1p1f1"),
   ("table_id", "Amon"), ("variable_id", "tas"), ("grid_label", "gn"),
   ("version", "20191115")]

/-- A decimated dataset whose time coordinate covers the 12 months of the
year 2000 (month counts 24000 … 24011). -/
def cmip_dataset : Dataset :=
  ⟨["time", "lat", "lon"], some latW, some lonW, none, none,
    some (List.range' 24000 12)⟩

/-- The metadata record of an obs4MIPs dataset. -/
def obs_metadata : List (String × String) :=
  [("project", "obs4MIPs"), ("activity_id", "obs4MIPs"),
   ("institution_id", "NASA-JPL"), ("source_id", "AIRS-2-1"),
   ("variable_id", "ta"), ("grid_label", "gn"), ("version", "1-1")]

/-- A decimated dataset with no time dimension. -/
def obs_dataset : Dataset :=
  ⟨["lat", "lon"], some latW, some lonW, none, none, none⟩

/- ### Generic facts about `foldl min` / `foldl max` -/

theorem fold_min_mem {α : Type} [LinearOrder α] (l : List α) (a : α) :
    l.foldl min a ∈ a :: l := by
  induction l generalizing a with
  | nil => simp
  | cons x xs ih =>
    rw [List.foldl_cons]
    rcases List.mem_cons.mp (ih (min a x)) with h | h
    · rw [h]
      rcases min_choice a x with hm | hm
      · rw [hm]; exact List.mem_cons_self _ _
      · rw [hm]; exact List.mem_cons_of_mem _ (List.mem_cons_self _ _)
    · exact List.mem_cons_of_mem _ (List.mem_cons_of_mem _ h)

theorem fold_min_le {α : Type} [LinearOrder α] (l : List α) (a : α) :
    ∀ x ∈ a :: l, l.foldl min a ≤ x := by
  induction l generalizing a with
  | nil => simp
  | cons y ys ih =>
    intro x hx
    rw [List.foldl_cons]
    rcases List.mem_cons.mp hx with h | h
    · exact h ▸ le_trans (ih _ _ (List.mem_cons_self _ _)) (min_le_left _ _)
    · rcases List.mem_cons.mp h with h' | h'
      · exact h' ▸ le_trans (ih _ _ (List.mem_cons_self _ _)) (min_le_right _ _)
      · exact ih (min a y) x (List.mem_cons_of_mem _ h')

theorem fold_max_mem {α : Type} [LinearOrder α] (l : List α) (a : α) :
    l.foldl max a ∈ a :: l := by
  induction l generalizing a with
  | nil => simp
  | cons x xs ih =>
    rw [List.foldl_cons]
    rcases List.mem_cons.mp (ih (max a x)) with h | h
    · rw [h]
      rcases max_choice a x with hm | hm
      · rw [hm]; exact List.mem_cons_self _ _
      · rw [hm]; exact List.mem_cons_of_mem _ (List.mem_cons_self _ _)
    · exact List.mem_cons_of_mem _ (List.mem_cons_of_mem _ h)

theorem fold_max_le {α : Type} [LinearOrder α] (l : List α) (a : α) :
    ∀ x ∈ a :: l, x ≤ l.foldl max a := by
  induction l generalizing a with
  | nil => simp
  | cons y ys ih =>
    intro x hx
    rw [List.foldl_cons]
    rcases List.mem_cons.mp hx with h | h
    · exact h ▸ le_trans (le_max_left _ _) (ih _ _ (List.mem_cons_self _ _))
    · rcases List.mem_cons.mp h with h' | h'
      · exact h' ▸ le_trans (le_max_right _ _) (ih _ _ (List.mem_cons_self _ _))
      · exact ih (max a y) x (List.mem_cons_of_mem _ h')

/- ### Facts about the grouping infrastructure -/

theorem sortedKeys_perm (datasets : List Row) :
    (sortedKeys datasets).Perm (datasets.map Row.key).dedup :=
  List.mergeSort_perm _ _

theorem sortedKeys_nodup (datasets : List Row) : (sortedKeys datasets).Nodup :=
  ((sortedKeys_perm datasets).nodup_iff).mpr (List.nodup_dedup _)

theorem mem_sortedKeys {datasets : List Row} {k : String} :
    k ∈ sortedKeys datasets ↔ k ∈ datasets.map Row.key := by
  rw [(sortedKeys_perm datasets).mem_iff, List.mem_dedup]

theorem groupFor_mem {datasets : List Row} {k : String} {r : Row} :
    r ∈ groupFor datasets k ↔ r ∈ datasets ∧ r.key = k := by
  simp [groupFor, List.mem_filter]

theorem groupFor_ne_nil {datasets : List Row} {k : String}
    (hk : k ∈ datasets.map Row.key) : ∃ f rest, groupFor datasets k = f :: rest := by
  obtain ⟨r, hr, hkey⟩ := List.mem_map.mp hk
  cases hg : groupFor datasets k with
  | nil =>
    exact absurd (groupFor_mem.mpr ⟨hr, hkey⟩) (by simp [hg])
  | cons f rest => exact ⟨f, rest, rfl⟩

theorem groupFor_head_key {datasets : List Row} {k : String} {f : Row} {rest : List Row}
    (hg : groupFor datasets k = f :: rest) : f.key = k :=
  (groupFor_mem.mp (hg ▸ List.mem_cons_self f rest)).2

theorem repRow_key {datasets : List Row} {k : String} {row : Row}
    (h : repRow datasets k = some row) : row.key = k := by
  unfold repRow at h
  cases hg : groupFor datasets k with
  | nil => simp [hg] at h
  | cons f rest =>
    rw [hg] at h
    cases h
    show f.key = k
    exact groupFor_head_key hg

theorem filter_filterMap_repRow_nil (datasets : List Row) (ks : List String)
    (k : String) (hk : k ∉ ks) :
    (ks.filterMap (repRow datasets)).filter (fun r => r.key == k) = [] := by
  induction ks with
  | nil => rfl
  | cons k' ks ih =>
    have hne : k ≠ k' := fun h => hk (h ▸ List.mem_cons_self k' ks)
    have hnotin : k ∉ ks := fun h => hk (List.mem_cons_of_mem _ h)
    cases hr : repRow datasets k' with
    | none => simpa [List.filterMap_cons, hr] using ih hnotin
    | some row =>
      have hkey : row.key = k' := repRow_key hr
      have : (row.key == k) = false := by
        simp [hkey]
        exact fun h => hne h.symm
      simpa [List.filterMap_cons, hr, List.filter_cons, this] using ih hnotin

theorem filter_filterMap_repRow (datasets : List Row) (ks : List String)
    (hnd : ks.Nodup) (k : String) (hk : k ∈ ks) (f : Row) (rest : List Row)
    (hg : groupFor datasets k = f :: rest) :
    (ks.filterMap (repRow datasets)).filter (fun r => r.key == k) =
      [dedup_group f rest] := by
  induction ks with
  | nil => cases hk
  | cons k' ks ih =>
    rcases List.nodup_cons.mp hnd with ⟨hk', hnd'⟩
    rcases List.mem_cons.mp hk with heq | hmem
    · subst heq
      have hr : repRow datasets k = some (dedup_group f rest) := by
        unfold repRow
        rw [hg]
      have hkey : (dedup_group f rest).key = k := by
        show f.key = k
        exact groupFor_head_key hg
      simp only [List.filterMap_cons, hr, List.filter_cons, hkey, beq_self_eq_true,
        if_pos]
      rw [filter_filterMap_repRow_nil datasets ks k hk']
    · have hne : k ≠ k' := fun h => hk' (h ▸ hmem)
      cases hr : repRow datasets k' with
      | none => simpa [List.filterMap_cons, hr] using ih hnd' hmem
      | some row =>
        have hkey : row.key = k' := repRow_key hr
        have hfalse : (row.key == k) = false := by
          simp [hkey]
          exact fun h => hne h.symm
        simpa [List.filterMap_cons, hr, List.filter_cons, hfalse] using ih hnd' hmem

/-- C1: For every dataset-record table containing duplicate keys,
deduplication yields exactly one row per distinct key; that row's metadata
equals the first row of its key-group verbatim, except its `time_start`
equals the minimum `time_start` and its `time_end` equals the maximum
`time_end` over all rows sharing the key (and every output row's key is a
key of the input). -/
theorem deduplicate_datasets_correct (datasets : List Row) (k : String)
    (_hdup : ∃ k0, 2 ≤ (datasets.map Row.key).count k0)
    (hk : k ∈ datasets.map Row.key) :
    ∃ f rest,
      groupFor datasets k = f :: rest ∧
      (deduplicate_datasets datasets).filter (fun r => r.key == k) =
        [dedup_group f rest] ∧
      (dedup_group f rest).key = f.key ∧
      (dedup_group f rest).fields = f.fields ∧
      ((dedup_group f rest).time_start ∈ (f :: rest).map Row.time_start ∧
        ∀ s ∈ (f :: rest).map Row.time_start, (dedup_group f rest).time_start ≤ s) ∧
      ((dedup_group f rest).time_end ∈ (f :: rest).map Row.time_end ∧
        ∀ s ∈ (f :: rest).map Row.time_end, s ≤ (dedup_group f rest).time_end) ∧
      ∀ r ∈ deduplicate_datasets datasets, r.key ∈ datasets.map Row.key := by
  obtain ⟨f, rest, hg⟩ := groupFor_ne_nil hk
  refine ⟨f, rest, hg, ?_, rfl, rfl, ?_, ?_, ?_⟩
  · exact filter_filterMap_repRow datasets (sortedKeys datasets)
      (sortedKeys_nodup datasets) k (mem_sortedKeys.mpr hk) f rest hg
  · have hmin : groupMinStart f rest =
        (rest.map Row.time_start).foldl min f.time_start := by
      simp [groupMinStart, List.foldl_map]
    constructor
    · have := fold_min_mem (rest.map Row.time_start) f.time_start
      simpa [dedup_group, hmin] using this
    · intro s hs
      have := fold_min_le (rest.map Row.time_start) f.time_start s (by simpa using hs)
      simpa [dedup_group, hmin] using this
  · have hmax : groupMaxEnd f rest =
        (rest.map Row.time_end).foldl max f.time_end := by
      simp [groupMaxEnd, List.foldl_map]
    constructor
    · have := fold_max_mem (rest.map Row.time_end) f.time_end
      simpa [dedup_group, hmax] using this
    · intro s hs
      have := fold_max_le (rest.map Row.time_end) f.time_end s (by simpa using hs)
      simpa [dedup_group, hmax] using this
  · intro r hr
    obtain ⟨k', hk', hrep⟩ := List.mem_filterMap.mp hr
    have := repRow_key hrep
    rw [← this] at hk'
    exact mem_sortedKeys.mp hk'

/-- C1 witness: the theorem applied to a two-row table whose rows share the
key "a". -/
theorem deduplicate_datasets_correct_witness :
    ∃ f rest,
      groupFor
          [⟨"a", "2000", "2005", [("files", "x")]⟩,
           ⟨"a", "1999", "2003", [("files", "y")]⟩] "a" = f :: rest ∧
      (deduplicate_datasets
          [⟨"a", "2000", "2005", [("files", "x")]⟩,
           ⟨"a", "1999", "2003", [("files", "y")]⟩]).filter
          (fun r => r.key == "a") = [dedup_group f rest] ∧
      (dedup_group f rest).key = f.key ∧
      (dedup_group f rest).fields = f.fields ∧
      ((dedup_group f rest).time_start ∈ (f :: rest).map Row.time_start ∧
        ∀ s ∈ (f :: rest).map Row.time_start, (dedup_group f rest).time_start ≤ s) ∧
      ((dedup_group f rest).time_end ∈ (f :: rest).map Row.time_end ∧
        ∀ s ∈ (f :: rest).map Row.time_end, s ≤ (dedup_group f rest).time_end) ∧
      ∀ r ∈ deduplicate_datasets
          [⟨"a", "2000", "2005", [("files", "x")]⟩,
           ⟨"a", "1999", "2003", [("files", "y")]⟩],
        r.key ∈ ([⟨"a", "2000", "2005", [("files", "x")]⟩,
           ⟨"a", "1999", "2003", [("files", "y")]⟩] : List Row).map Row.key :=
  deduplicate_datasets_correct _ "a" ⟨"a", by decide⟩ (by decide)

/- ### The frame property of deduplication -/

theorem dedup_group_state_fst (group : List Row) :
    (dedup_group_state group).1 = group := by
  cases group <;> rfl

theorem writeBack_groupFor (datasets : List Row) (k : String) :
    writeBack datasets k (groupFor datasets k) = datasets := by
  induction datasets with
  | nil => rfl
  | cons r rs ih =>
    by_cases h : (r.key == k) = true
    · simp only [groupFor, List.filter_cons, h, if_pos]
      simp only [writeBack, h, if_pos]
      exact congrArg (r :: ·) ih
    · have h' : (r.key == k) = false := by simpa using h
      simp only [groupFor, List.filter_cons, h', Bool.false_eq_true, if_false]
      simp only [writeBack, h', Bool.false_eq_true, if_false]
      exact congrArg (r :: ·) ih

theorem dedup_group_state_snd (datasets : List Row) (k : String) :
    (dedup_group_state (groupFor datasets k)).2 = repRow datasets k := by
  cases hg : groupFor datasets k <;> simp [dedup_group_state, repRow, hg, dedup_group]

theorem deduplicate_datasets_state_spec (datasets : List Row) (ks : List String)
    (acc : List Row) :
    ks.foldl
      (fun st k =>
        let res := dedup_group_state (groupFor st.1 k)
        (writeBack st.1 k res.1, st.2 ++ res.2.toList))
      (datasets, acc) =
      (datasets, acc ++ ks.filterMap (repRow datasets)) := by
  induction ks generalizing acc with
  | nil => simp
  | cons k ks ih =>
    rw [List.foldl_cons]
    have hstep :
        (writeBack datasets k (dedup_group_state (groupFor datasets k)).1,
          acc ++ (dedup_group_state (groupFor datasets k)).2.toList) =
        (datasets, acc ++ (repRow datasets k).toList) := by
      rw [dedup_group_state_fst, writeBack_groupFor, dedup_group_state_snd]
    rw [hstep, ih]
    cases hr : repRow datasets k <;> simp [List.filterMap_cons, hr]

/-- C10: `deduplicate_datasets` does not mutate its input table: the
per-group representative is a copy of the group's first row, so after the
call every row of the input — `time_start` and `time_end` included — is
unchanged, while the returned table is the deduplicated one. -/
theorem deduplicate_datasets_state_no_mutation (datasets : List Row) :
    (deduplicate_datasets_state datasets).1 = datasets ∧
    (deduplicate_datasets_state datasets).2 = deduplicate_datasets datasets := by
  unfold deduplicate_datasets_state deduplicate_datasets
  rw [deduplicate_datasets_state_spec]
  exact ⟨rfl, by simp⟩

/- ### Facts about `decimate_spatial` -/

theorem decimate_spatial_latlon {ds : Dataset} {la lo : Coord}
    (hlat : "lat" ∈ ds.dims) (hlon : "lon" ∈ ds.dims)
    (hla : ds.lat = some la) (hlo : ds.lon = some lo)
    (h1 : la.dims.length = 1) (h2 : lo.dims.length = 1) :
    decimate_spatial ds = Except.ok { ds with
      lat := some { la with values := la.values.take 10 }
      lon := some { lo with values := lo.values.take 10 } } := by
  simp [decimate_spatial, hlat, hlon, hla, hlo, h1, h2]

theorem decimate_spatial_ij {ds : Dataset} {ci cj : Coord}
    (hnll : ¬ ("lat" ∈ ds.dims ∧ "lon" ∈ ds.dims))
    (hi : "i" ∈ ds.dims) (hj : "j" ∈ ds.dims)
    (hci : ds.i = some ci) (hcj : ds.j = some cj) :
    decimate_spatial ds = Except.ok { ds with
      i := some { ci with values := ci.values.take 10 }
      j := some { cj with values :=
        (cj.values.drop (cj.values.length / 2)).take 10 } } := by
  simp [decimate_spatial, hnll, hi, hj, hci, hcj]

theorem decimate_spatial_unsupported {ds : Dataset}
    (h1 : ¬ ("lat" ∈ ds.dims ∧ "lon" ∈ ds.dims))
    (h2 : ¬ ("i" ∈ ds.dims ∧ "j" ∈ ds.dims)) :
    decimate_spatial ds =
      Except.error "Cannot decimate this grid: too many dimensions" := by
  simp [decimate_spatial, h1, h2]

theorem decimate_spatial_preserves {ds r : Dataset}
    (h : decimate_spatial ds = Except.ok r) :
    r.dims = ds.dims ∧ r.time = ds.time := by
  unfold decimate_spatial at h
  split at h
  · split at h
    · split at h
      · cases h
        exact ⟨rfl, rfl⟩
      · simp at h
    · simp at h
  · split at h
    · split at h
      · cases h
        exact ⟨rfl, rfl⟩
      · simp at h
    · simp at h

theorem decimate_spatial_latlon_keeps_ij {ds r : Dataset}
    (hlat : "lat" ∈ ds.dims) (hlon : "lon" ∈ ds.dims)
    (h : decimate_spatial ds = Except.ok r) :
    r.i = ds.i ∧ r.j = ds.j := by
  unfold decimate_spatial at h
  rw [if_pos ⟨hlat, hlon⟩] at h
  split at h
  · split at h
    · cases h
      exact ⟨rfl, rfl⟩
    · simp at h
  · simp at h

theorem decimate_dataset_eq {ds r0 : Dataset} {ts : Option (Nat × Nat)}
    (hs : decimate_spatial ds = Except.ok r0) :
    decimate_dataset ds ts =
      if "time" ∈ ds.dims then
        match ts with
        | some span =>
          match r0.time with
          | some tv =>
            let clipped := tv.filter (fun t => decide (span.1 ≤ t ∧ t ≤ span.2))
            if clipped.length = 0 then Except.ok none
            else Except.ok (some { r0 with time := some clipped })
          | none => Except.error "AttributeError: time coordinate missing"
        | none => Except.ok (some r0)
      else Except.ok (some r0) := by
  unfold decimate_dataset
  rw [hs]

theorem decimate_dataset_eq_error {ds : Dataset} {ts : Option (Nat × Nat)}
    {e : String} (hs : decimate_spatial ds = Except.error e) :
    decimate_dataset ds ts = Except.error e := by
  unfold decimate_dataset
  rw [hs]

/-- Any dataset produced by `decimate_dataset` is the spatially decimated
dataset, possibly with its time coordinate replaced by a clipped one. -/
theorem decimate_dataset_ok_cases {ds : Dataset} {ts : Option (Nat × Nat)}
    {r : Dataset} (h : decimate_dataset ds ts = Except.ok (some r)) :
    ∃ r0, decimate_spatial ds = Except.ok r0 ∧
      (r = r0 ∨ ∃ tv, r = { r0 with time := some tv }) := by
  cases hs : decimate_spatial ds with
  | error e =>
    rw [decimate_dataset_eq_error hs] at h
    simp at h
  | ok r0 =>
    rw [decimate_dataset_eq hs] at h
    refine ⟨r0, rfl, ?_⟩
    by_cases ht : "time" ∈ ds.dims
    · rw [if_pos ht] at h
      cases ts with
      | none =>
        cases h
        exact Or.inl rfl
      | some span =>
        cases htv : r0.time with
        | none =>
          rw [htv] at h
          simp at h
        | some tv =>
          rw [htv] at h
          dsimp only at h
          by_cases hclip :
              (tv.filter (fun t => decide (span.1 ≤ t ∧ t ≤ span.2))).length = 0
          · rw [if_pos hclip] at h
            simp at h
          · rw [if_neg hclip] at h
            cases h
            exact Or.inr ⟨_, rfl⟩
    · rw [if_neg ht] at h
      cases h
      exact Or.inl rfl

theorem take10_le (l : List Int) : (l.take 10).length ≤ 10 := by
  rw [List.length_take]
  exact min_le_left _ _

theorem take10_eq (l : List Int) (h : 10 ≤ l.length) : (l.take 10).length = 10 := by
  rw [List.length_take]
  exact min_eq_left h

/-- C2: For every dataset with one-dimensional `lat` and `lon` dimensions,
`decimate_dataset` succeeds, and any dataset it returns has `lat` and `lon`
of length at most 10 — exactly 10 when the source has at least 10 points —
namely the first 10 points along each. -/
theorem decimate_dataset_latlon (ds : Dataset) (ts : Option (Nat × Nat))
    (la lo : Coord) (hla : ds.lat = some la) (hlo : ds.lon = some lo)
    (hlat : "lat" ∈ ds.dims) (hlon : "lon" ∈ ds.dims)
    (h1 : la.dims.length = 1) (h2 : lo.dims.length = 1)
    (htime : "time" ∈ ds.dims → ts ≠ none → ds.time ≠ none) :
    ∃ res, decimate_dataset ds ts = Except.ok res ∧
      ∀ r, res = some r →
        r.lat = some { la with values := la.values.take 10 } ∧
        r.lon = some { lo with values := lo.values.take 10 } ∧
        (la.values.take 10).length ≤ 10 ∧ (lo.values.take 10).length ≤ 10 ∧
        (10 ≤ la.values.length → (la.values.take 10).length = 10) ∧
        (10 ≤ lo.values.length → (lo.values.take 10).length = 10) := by
  have hs := decimate_spatial_latlon hlat hlon hla hlo h1 h2
  have hprops : ∀ r : Dataset,
      r.lat = some { la with values := la.values.take 10 } →
      r.lon = some { lo with values := lo.values.take 10 } →
      (r.lat = some { la with values := la.values.take 10 } ∧
        r.lon = some { lo with values := lo.values.take 10 } ∧
        (la.values.take 10).length ≤ 10 ∧ (lo.values.take 10).length ≤ 10 ∧
        (10 ≤ la.values.length → (la.values.take 10).length = 10) ∧
        (10 ≤ lo.values.length → (lo.values.take 10).length = 10)) :=
    fun r hr1 hr2 =>
      ⟨hr1, hr2, take10_le _, take10_le _,
        fun h => take10_eq _ h, fun h => take10_eq _ h⟩
  rw [decimate_dataset_eq hs]
  by_cases ht : "time" ∈ ds.dims
  · rw [if_pos ht]
    cases ts with
    | none =>
      exact ⟨_, rfl, fun r hr => by
        cases hr
        exact hprops _ rfl rfl⟩
    | some span =>
      cases htv : ds.time with
      | none => exact absurd htv (htime ht (by simp))
      | some tv =>
        dsimp only
        by_cases hclip :
            (tv.filter (fun t => decide (span.1 ≤ t ∧ t ≤ span.2))).length = 0
        · rw [if_pos hclip]
          exact ⟨none, rfl, fun r hr => by cases hr⟩
        · rw [if_neg hclip]
          exact ⟨_, rfl, fun r hr => by
            cases hr
            exact hprops _ rfl rfl⟩
  · rw [if_neg ht]
    exact ⟨_, rfl, fun r hr => by
      cases hr
      exact hprops _ rfl rfl⟩

/-- C2 witness: the theorem applied to a dataset with a 12-point 1-d lat, a
4-point 1-d lon and no time span. -/
theorem decimate_dataset_latlon_witness :
    ∃ res, decimate_dataset dsLatLon none = Except.ok res ∧
      ∀ r, res = some r →
        r.lat = some { latW with values := latW.values.take 10 } ∧
        r.lon = some { lonW with values := lonW.values.take 10 } ∧
        (latW.values.take 10).length ≤ 10 ∧ (lonW.values.take 10).length ≤ 10 ∧
        (10 ≤ latW.values.length → (latW.values.take 10).length = 10) ∧
        (10 ≤ lonW.values.length → (lonW.values.take 10).length = 10) :=
  decimate_dataset_latlon dsLatLon none latW lonW rfl rfl (by decide) (by decide)
    rfl rfl (fun _ hns => absurd rfl hns)

/-- C3 counterexample: on the 20-point j axis `[0 … 19]` the code selects
`j[10 : 20]` — the 10-point window *starting* at the j-midpoint 10 — while
the 10-point window centered on the midpoint is `j[5 : 15]`; the two
differ. -/
theorem decimate_dataset_ij_not_centered :
    decimate_dataset dsIJ none = Except.ok (some dsIJ_decimated) ∧
    dsIJ_decimated.j = some ⟨["j"], [10, 11, 12, 13, 14, 15, 16, 17, 18, 19]⟩ ∧
    spec_centered_j_window jW.values = [5, 6, 7, 8, 9, 10, 11, 12, 13, 14] ∧
    dsIJ_decimated.j ≠ some ⟨["j"], spec_centered_j_window jW.values⟩ :=
  ⟨rfl, rfl, rfl, by decide⟩

/-- C3 (amended): For every dataset with `i` and `j` index dimensions (and
not both lat and lon dimensions), `decimate_dataset` succeeds, and any
dataset it returns has an `i` dimension of length at most 10 and a
`j`-window that is the 10-point window *starting at* the source's
j-midpoint (midpoint computed as half the j length), i.e.
`j[mid : mid + 10]`. -/
theorem decimate_dataset_ij_window (ds : Dataset) (ts : Option (Nat × Nat))
    (ci cj : Coord) (hci : ds.i = some ci) (hcj : ds.j = some cj)
    (hi : "i" ∈ ds.dims) (hj : "j" ∈ ds.dims)
    (hnll : ¬ ("lat" ∈ ds.dims ∧ "lon" ∈ ds.dims))
    (htime : "time" ∈ ds.dims → ts ≠ none → ds.time ≠ none) :
    ∃ res, decimate_dataset ds ts = Except.ok res ∧
      ∀ r, res = some r →
        r.i = some { ci with values := ci.values.take 10 } ∧
        (ci.values.take 10).length ≤ 10 ∧
        r.j = some { cj with values :=
          (cj.values.drop (cj.values.length / 2)).take 10 } := by
  have hs := decimate_spatial_ij hnll hi hj hci hcj
  have hprops : ∀ r : Dataset,
      r.i = some { ci with values := ci.values.take 10 } →
      r.j = some { cj with values :=
        (cj.values.drop (cj.values.length / 2)).take 10 } →
      (r.i = some { ci with values := ci.values.take 10 } ∧
        (ci.values.take 10).length ≤ 10 ∧
        r.j = some { cj with values :=
          (cj.values.drop (cj.values.length / 2)).take 10 }) :=
    fun r hr1 hr2 => ⟨hr1, take10_le _, hr2⟩
  rw [decimate_dataset_eq hs]
  by_cases ht : "time" ∈ ds.dims
  · rw [if_pos ht]
    cases ts with
    | none =>
      exact ⟨_, rfl, fun r hr => by
        cases hr
        exact hprops _ rfl rfl⟩
    | some span =>
      cases htv : ds.time with
      | none => exact absurd htv (htime ht (by simp))
      | some tv =>
        dsimp only
        by_cases hclip :
            (tv.filter (fun t => decide (span.1 ≤ t ∧ t ≤ span.2))).length = 0
        · rw [if_pos hclip]
          exact ⟨none, rfl, fun r hr => by cases hr⟩
        · rw [if_neg hclip]
          exact ⟨_, rfl, fun r hr => by
            cases hr
            exact hprops _ rfl rfl⟩
  · rw [if_neg ht]
    exact ⟨_, rfl, fun r hr => by
      cases hr
      exact hprops _ rfl rfl⟩

/-- C3 witness (for the amended claim): the theorem applied to a dataset
with a 12-point i axis and a 20-point j axis. -/
theorem decimate_dataset_ij_window_witness :
    ∃ res, decimate_dataset dsIJ none = Except.ok res ∧
      ∀ r, res = some r →
        r.i = some { iW with values := iW.values.take 10 } ∧
        (iW.values.take 10).length ≤ 10 ∧
        r.j = some { jW with values :=
          (jW.values.drop (jW.values.length / 2)).take 10 } :=
  decimate_dataset_ij_window dsIJ none iW jW rfl rfl (by decide) (by decide)
    (by decide) (fun h _ => absurd h (by decide))

/-- C4: For every dataset whose spatial decimation succeeds, that has a
time dimension and a time coordinate, and a supplied time span that does
not intersect the time coordinate, `decimate_dataset` returns the
no-result sentinel `none` instead of a dataset. -/
theorem decimate_dataset_empty_clip (ds r0 : Dataset) (a b : Nat)
    (hs : decimate_spatial ds = Except.ok r0)
    (ht : "time" ∈ ds.dims) (tv : List Nat) (htv : ds.time = some tv)
    (hempty : ∀ t ∈ tv, ¬ (a ≤ t ∧ t ≤ b)) :
    decimate_dataset ds (some (a, b)) = Except.ok none := by
  rw [decimate_dataset_eq hs, if_pos ht]
  have htv0 : r0.time = some tv := by
    rw [(decimate_spatial_preserves hs).2, htv]
  rw [htv0]
  dsimp only
  have hnil : tv.filter (fun t => decide (a ≤ t ∧ t ≤ b)) = [] := by
    rw [List.filter_eq_nil_iff]
    intro t htmem
    simpa using hempty t htmem
  rw [hnil]
  rfl

/-- C4 witness: clipping the Jan–Dec 2000 dataset to the span
`(30000, 30005)` (mid-2500), which misses its time coordinate entirely,
returns the sentinel. -/
theorem decimate_dataset_empty_clip_witness :
    decimate_dataset dsLatLon (some (30000, 30005)) = Except.ok none :=
  decimate_dataset_empty_clip dsLatLon
    ⟨["time", "lat", "lon"], some ⟨["lat"], [0, 1, 2, 3, 4, 5, 6, 7, 8, 9]⟩,
      some lonW, none, none, some [24000, 24011]⟩
    30000 30005 rfl (by decide) [24000, 24011] rfl (by decide)

/-- C5: For every dataset whose dimensions match neither grid convention —
not both lat and lon, and not both i and j — `decimate_dataset` raises the
unsupported-grid value error unconditionally. -/
theorem decimate_dataset_unsupported_grid (ds : Dataset) (ts : Option (Nat × Nat))
    (h1 : ¬ ("lat" ∈ ds.dims ∧ "lon" ∈ ds.dims))
    (h2 : ¬ ("i" ∈ ds.dims ∧ "j" ∈ ds.dims)) :
    decimate_dataset ds ts =
      Except.error "Cannot decimate this grid: too many dimensions" :=
  decimate_dataset_eq_error (decimate_spatial_unsupported h1 h2)

/-- C5 witness: a dataset with only a time dimension. -/
theorem decimate_dataset_unsupported_grid_witness :
    decimate_dataset dsNoGrid none =
      Except.error "Cannot decimate this grid: too many dimensions" :=
  decimate_dataset_unsupported_grid dsNoGrid none (by decide) (by decide)

/-- C8: For every dataset with both the lat/lon and the i/j dimension
pairs, `decimate_dataset` takes the lat/lon branch, so any dataset it
returns carries the `i` and `j` coordinates of the source unchanged. -/
theorem decimate_dataset_latlon_precedence (ds : Dataset) (ts : Option (Nat × Nat))
    (hlat : "lat" ∈ ds.dims) (hlon : "lon" ∈ ds.dims)
    (_hi : "i" ∈ ds.dims) (_hj : "j" ∈ ds.dims) :
    ∀ r, decimate_dataset ds ts = Except.ok (some r) →
      r.i = ds.i ∧ r.j = ds.j := by
  intro r h
  obtain ⟨r0, hs, hcase⟩ := decimate_dataset_ok_cases h
  have hij := decimate_spatial_latlon_keeps_ij hlat hlon hs
  rcases hcase with rfl | ⟨tv, rfl⟩
  · exact hij
  · exact ⟨hij.1, hij.2⟩

/-- C8 witness: decimating a dataset with lat, lon, i and j dimensions
leaves its i and j coordinates untouched. -/
theorem decimate_dataset_latlon_precedence_witness :
    dsBoth_decimated.i = dsBoth.i ∧ dsBoth_decimated.j = dsBoth.j :=
  decimate_dataset_latlon_precedence dsBoth none (by decide) (by decide)
    (by decide) (by decide) dsBoth_decimated rfl

/-- C9: When the supplied time span is `none` or the dataset has no time
dimension, `decimate_dataset` never returns the no-result sentinel: it
either returns a dataset or raises. -/
theorem decimate_dataset_no_sentinel (ds : Dataset) (ts : Option (Nat × Nat))
    (h : ts = none ∨ "time" ∉ ds.dims) :
    decimate_dataset ds ts ≠ Except.ok none := by
  cases hs : decimate_spatial ds with
  | error e =>
    rw [decimate_dataset_eq_error hs]
    simp
  | ok r0 =>
    rw [decimate_dataset_eq hs]
    rcases h with rfl | hnt
    · by_cases ht : "time" ∈ ds.dims
      · rw [if_pos ht]
        simp
      · rw [if_neg ht]
        simp
    · rw [if_neg hnt]
      simp

/-- C9 witness: an ij dataset with no time span. -/
theorem decimate_dataset_no_sentinel_witness :
    decimate_dataset dsIJ none ≠ Except.ok none :=
  decimate_dataset_no_sentinel dsIJ none (Or.inl rfl)

/-- C6: For a CMIP-style record (project ≠ "obs4MIPs") with the stated
fields and a dataset spanning Jan–Dec 2000, `create_out_filename` returns
the directory components mip era / activity / institution / source /
experiment / member / table / variable / grid label / `v20191115` — ending
in `.../Amon/tas/gn/v20191115/` — and the filename
`tas_Amon_ACCESS-ESM1-5_historical_r1i1p1f1_gn_200001-200012.nc`, whose
time suffix comes from the dataset's own min/max time coordinate. -/
theorem create_out_filename_cmip :
    create_out_filename cmip_metadata cmip_dataset =
      some ["CMIP6", "CMIP", "CSIRO", "ACCESS-ESM1-5", "historical",
        "r1i1p1f1", "Amon", "tas", "gn", "v20191115",
        "tas_Amon_ACCESS-ESM1-5_historical_r1i1p1f1_gn_200001-200012.nc"] := by
  decide

/-- C7: For an obs4MIPs record with the stated fields and a dataset with no
time dimension, `create_out_filename` returns the directory components
activity / institution / source / variable / grid label / `v1-1` and the
filename `ta_AIRS-2-1_gn.nc`, with no time suffix. -/
theorem create_out_filename_obs4mips :
    create_out_filename obs_metadata obs_dataset =
      some ["obs4MIPs", "NASA-JPL", "AIRS-2-1", "ta", "gn", "v1-1",
        "ta_AIRS-2-1_gn.nc"] := by
  decide

end FetchTestData
